import Mathlib

/-!
Verification development for the "agentes-prodig-langGraph" consultancy-chat
repository.  The definitions below are a shallow embedding of the final
TypeScript sources:

  * `runConsultancyFlow` / `createSession` embed the server actions of
    `actions.ts` (the `ActionResponse`-returning version, src/unnamed/part_001);
  * the data model embeds `types.ts` (src/unnamed/part_000);
  * `inputDisabled` embeds the `disabled` predicate of the chat input in
    `ChatUI` (src/unnamed/part_002, line 384).

Modelling conventions:

  * The database row for the one session touched by an invocation is a
    `SessionData` value; every `updateState` call of the source is modelled by
    `updateState`, which applies a partial update (`SessionUpdate`, the source's
    `Update` payload with `id` already stripped, as `updateState` strips it)
    and records the resulting persisted row in the `writes` trace.
  * The Gemini client is a parameter `ai : GenAI`: the n-th
    `generateContent` call of one invocation, given its `systemInstruction`
    and `contents`, either throws (`Except.error` with the thrown message) or
    returns the response, whose `.text` field is an `Option String`
    (`none` models `undefined`).
  * JavaScript `x || y` on strings treats both `null`/`undefined` and the
    empty string as falsy; `jsStringOr` models it.  The source's null-guards
    `session.chat_history || []`, `session.research_results || []` and
    `session.research_counter || 0` are identities here because the model's
    row fields are non-nullable lists / `Nat`.
  * Every `Date.now()` of one invocation is modelled by the single parameter
    `now` (no claim depends on distinct timestamps).
  * `RunTrace.agentError` records whether the inner `catch (agentError)`
    block fired, and with which message; in the source this is observable as
    the appended `system` message.
-/

inductive AgentRole where
  | user
  | pedro
  | juan
  | system
deriving DecidableEq, Repr

structure ChatMessage where
  role : AgentRole
  content : String
  timestamp : Nat
deriving DecidableEq, Repr

inductive WorkflowState where
  | WAITING_FOR_INFO
  | START_RESEARCH
  | DECIDE_FLOW
  | START_REPORT
  | FINISHED
deriving DecidableEq, Repr

structure SessionData where
  id : String
  user_id : String
  chat_history : List ChatMessage
  company_info : Option String
  research_results : List String
  report_final : Option String
  current_state : WorkflowState
  research_counter : Nat
deriving DecidableEq, Repr

/-- The `ActionResponse<T>` result contract of the server actions:
`{ success: boolean; data?: T; error?: string }`. -/
structure ActionResponse where
  success : Bool
  data : Option SessionData := none
  error : Option String := none
deriving DecidableEq, Repr

/-- Partial-update payload of `updateState` (the source's
`Database[..]['sessions']['Update']` restricted to the fields the runner ever
sends; `id` is stripped by `updateState` itself and `user_id`/`created_at`
are never sent). -/
structure SessionUpdate where
  chat_history : Option (List ChatMessage) := none
  company_info : Option String := none
  research_results : Option (List String) := none
  report_final : Option String := none
  current_state : Option WorkflowState := none
  research_counter : Option Nat := none
deriving DecidableEq, Repr

/-- Field-level partial update of the persisted row, as performed by the
Supabase `update(cleanUpdates)` call. -/
def applyUpdate (s : SessionData) (u : SessionUpdate) : SessionData :=
  { s with
    chat_history := u.chat_history.getD s.chat_history
    company_info := match u.company_info with
      | some v => some v
      | none => s.company_info
    research_results := u.research_results.getD s.research_results
    report_final := match u.report_final with
      | some v => some v
      | none => s.report_final
    current_state := u.current_state.getD s.current_state
    research_counter := u.research_counter.getD s.research_counter }

/-- JavaScript `a || b` for a nullable string `a`: `null`, `undefined` and
`""` are falsy. -/
def jsStringOr (a : Option String) (b : String) : String :=
  match a with
  | none => b
  | some s => if s = "" then b else s

/-- The model environment: `process.env.API_KEY` and
`process.env.GEMINI_API_KEY`. -/
structure GenEnv where
  apiKey : Option String
  geminiApiKey : Option String
deriving DecidableEq, Repr

/-- `process.env.API_KEY || process.env.GEMINI_API_KEY` with JavaScript
falsiness; `getAI` throws exactly when this is `none`. -/
def envKey (env : GenEnv) : Option String :=
  match env.apiKey with
  | some s =>
      if s = "" then
        match env.geminiApiKey with
        | some t => if t = "" then none else some t
        | none => none
      else some s
  | none =>
      match env.geminiApiKey with
      | some t => if t = "" then none else some t
      | none => none

/-- The Gemini client behaviour for one invocation: call index within the
invocation, `systemInstruction`, `contents` ↦ thrown error message or the
response's `.text` (an optional string). -/
abbrev GenAI := Nat → String → String → Except String (Option String)

def PEDRO_SYSTEM_PROMPT : String :=
  "\nEres Pedro, un Ingeniero de IA Senior y Analista de Datos en \x27Consultores Empresariales IA\x27.\nTu tono es: Analítico, Técnico, Objetivo y Directo.\nTu tarea es analizar la información de la empresa proporcionada e identificar puntos clave, riesgos técnicos y oportunidades de automatización.\nSé conciso. Usa terminología técnica adecuada.\n"

def JUAN_SYSTEM_PROMPT : String :=
  "\nEres Juan, un Project Manager y Estratega de Negocios en \x27Consultores Empresariales IA\x27.\nTu tono es: Ejecutivo, Estratégico, Empático y No-técnico.\nTu tarea es tomar los hallazgos técnicos de Pedro y sintetizarlos en un plan de acción ejecutivo.\nHabla en términos de valor de negocio, ROI y estrategia. Eres amable y profesional.\n"

/-- Character-level JSON string escaping used by `JSON.stringify` on the
members of `research_results` (only the escapes that can actually occur in
this model's strings matter for the prompt text). -/
def jsonEscape (s : String) : String :=
  String.mk (s.data.foldr
    (fun c acc =>
      match c with
      | '\\' => '\\' :: '\\' :: acc
      | '"' => '\\' :: '"' :: acc
      | '\n' => '\\' :: 'n' :: acc
      | c => c :: acc) [])

/-- `JSON.stringify` of a string array, as interpolated into Juan's prompt. -/
def jsonStringifyList (l : List String) : String :=
  "[" ++ String.intercalate "," (l.map (fun s => "\"" ++ jsonEscape s ++ "\"")) ++ "]"

def pedroPrompt1 (companyInfo : Option String) (userMessage : String) : String :=
  "Analiza esta información de la empresa: \"" ++ jsStringOr companyInfo userMessage ++
    "\". Identifica 3 vectores de ataque o mejora técnica."

def pedroPrompt2 (pedroText1 : String) : String :=
  "Basado en tu análisis anterior: \"" ++ pedroText1 ++
    "\", profundiza en la infraestructura de datos necesaria. Sé muy específico técnicamente."

def juanPrompt (companyInfo : Option String) (userMessage : String)
    (results : List String) : String :=
  "\n          La información de la empresa es: \"" ++ jsStringOr companyInfo userMessage ++
    "\".\n          Los hallazgos técnicos de Pedro fueron: " ++ jsonStringifyList results ++
    ".\n          \n          Genera un reporte final estratégico para el cliente. Resume los puntos técnicos en beneficios de negocio y propón los siguientes pasos.\n        "

/-- Running state of one `runConsultancyFlow` invocation: the currently
persisted row, the trace of persisted rows (one entry per `updateState`
call, in order) and the trace of `generateContent` calls
(`systemInstruction`, `contents`). -/
structure FlowSt where
  persisted : SessionData
  writes : List SessionData
  calls : List (String × String)
deriving DecidableEq, Repr

/-- `updateState(u)`: persist the partial update and record the write. -/
def updateState (st : FlowSt) (u : SessionUpdate) : FlowSt :=
  let p := applyUpdate st.persisted u
  { st with persisted := p, writes := st.writes ++ [p] }

/-- `appendMessage(msg, currentHistory)`: build the new history, persist it,
return it. -/
def appendMessage (msg : ChatMessage) (hist : List ChatMessage) (st : FlowSt) :
    List ChatMessage × FlowSt :=
  let newHist := hist ++ [msg]
  (newHist, updateState st { chat_history := some newHist })

/-- One `ai.models.generateContent` invocation: record the call and consult
the client behaviour at the current call index. -/
def genCall (ai : GenAI) (st : FlowSt) (sys contents : String) :
    FlowSt × Except String (Option String) :=
  ({ st with calls := st.calls ++ [(sys, contents)] }, ai st.calls.length sys contents)

/-- The message appended by the `catch (agentError)` block. -/
def errMsg (e : String) (now : Nat) : ChatMessage :=
  { role := .system, content := "Error interno de IA: " ++ e, timestamp := now }

/-- The `catch (agentError)` handler: append a single system message to the
history current at the failure point. -/
def catchAgent (st : FlowSt) (hist : List ChatMessage) (e : String) (now : Nat) : FlowSt :=
  (appendMessage (errMsg e now) hist st).2

/-- The `=== AGENT: JUAN ===` section: transition to `START_REPORT`, run the
synthesis call, append Juan's message, store the final report and finish.
Returns the final flow state and the fired agent error, if any. -/
def juanPhase (ai : GenAI) (session : SessionData) (userMessage : String) (now : Nat)
    (st : FlowSt) (hist : List ChatMessage) (results : List String) :
    FlowSt × Option String :=
  let st0 := updateState st { current_state := some .START_REPORT }
  let g := genCall ai st0 JUAN_SYSTEM_PROMPT (juanPrompt session.company_info userMessage results)
  match g.2 with
  | .error e => (catchAgent g.1 hist e now, some e)
  | .ok t =>
      let juanText := jsStringOr t "Error generando reporte final."
      let st2 := (appendMessage { role := .juan, content := juanText, timestamp := now } hist g.1).2
      let st3 := updateState st2 { report_final := some juanText, current_state := some .FINISHED }
      (st3, none)

/-- The `--- Step 2: Agent Logic ---` try-block: Pedro's first research call,
the `researchCounter < 2` decision node with the optional second research
call, then Juan's phase; any thrown client error is handled by
`catchAgent`. -/
def agentPhase (ai : GenAI) (session : SessionData) (userMessage : String) (now : Nat)
    (st : FlowSt) (hist : List ChatMessage) (results : List String) (counter : Nat) :
    FlowSt × Option String :=
  let g1 := genCall ai st PEDRO_SYSTEM_PROMPT (pedroPrompt1 session.company_info userMessage)
  match g1.2 with
  | .error e => (catchAgent g1.1 hist e now, some e)
  | .ok t1 =>
      let pedroText1 := jsStringOr t1 "Sin respuesta técnica."
      let results1 := results ++ [pedroText1]
      let ap1 := appendMessage { role := .pedro, content := pedroText1, timestamp := now } hist g1.1
      let counter1 := counter + 1
      let stC := updateState ap1.2
        { research_results := some results1
          research_counter := some counter1
          current_state := some .DECIDE_FLOW }
      if counter1 < 2 then
        let g2 := genCall ai stC PEDRO_SYSTEM_PROMPT (pedroPrompt2 pedroText1)
        match g2.2 with
        | .error e => (catchAgent g2.1 ap1.1 e now, some e)
        | .ok t2 =>
            let pedroText2 := jsStringOr t2 "Sin detalle técnico adicional."
            let results2 := results1 ++ [pedroText2]
            let ap2 := appendMessage { role := .pedro, content := pedroText2, timestamp := now } ap1.1 g2.1
            let counter2 := counter1 + 1
            let stF := updateState ap2.2
              { research_results := some results2, research_counter := some counter2 }
            juanPhase ai session userMessage now stF ap2.1 results2
      else
        juanPhase ai session userMessage now stC ap1.1 results1

/-- The database contents visible to one invocation: the sessions table as an
association list keyed by session id. -/
def lookupSession (db : List (String × SessionData)) (sid : String) : Option SessionData :=
  match db with
  | [] => none
  | (k, s) :: rest => if k = sid then some s else lookupSession rest sid

/-- Full observable behaviour of one `runConsultancyFlow` invocation. -/
structure RunTrace where
  writes : List SessionData
  calls : List (String × String)
  agentError : Option String
  result : ActionResponse
deriving DecidableEq, Repr

/-- Shallow embedding of `runConsultancyFlow(sessionId, userMessage)`
(src/unnamed/part_001): guard the Gemini credential, fetch the session,
append the user message, capture `company_info` on the first message, run
the agent pipeline under the inner try/catch, re-fetch and return success. -/
def runConsultancyFlow (env : GenEnv) (ai : GenAI) (db : List (String × SessionData))
    (sessionId userMessage : String) (now : Nat) : RunTrace :=
  match envKey env with
  | none =>
      { writes := [], calls := [], agentError := none
        result := { success := false
                    error := some "API_KEY is missing. Check your environment variables." } }
  | some _ =>
      match lookupSession db sessionId with
      | none =>
          { writes := [], calls := [], agentError := none
            result := { success := false, error := some "Session not found in database." } }
      | some session =>
          let st0 : FlowSt := { persisted := session, writes := [], calls := [] }
          let ap := appendMessage { role := .user, content := userMessage, timestamp := now }
            session.chat_history st0
          let st2 :=
            if session.current_state = .WAITING_FOR_INFO then
              updateState ap.2
                { company_info := some userMessage
                  current_state := some .START_RESEARCH }
            else ap.2
          let out := agentPhase ai session userMessage now st2 ap.1
            session.research_results session.research_counter
          { writes := out.1.writes, calls := out.1.calls, agentError := out.2
            result := { success := true, data := some out.1.persisted } }

/-- A database error as surfaced by the Supabase client (`code`, `message`). -/
structure DbError where
  code : String
  message : String
deriving DecidableEq, Repr

/-- The insert payload sent by `createSession`. -/
structure SessionInsert where
  user_id : String
  chat_history : List ChatMessage
  current_state : WorkflowState
  research_counter : Nat
  research_results : List String
deriving DecidableEq, Repr

/-- Zero/empty defaults inserted for a new session. -/
def sessionDefaults (userId : String) : SessionInsert :=
  { user_id := userId
    chat_history := []
    current_state := .WAITING_FOR_INFO
    research_counter := 0
    research_results := [] }

/-- Shallow embedding of `createSession(userId)` (src/unnamed/part_001):
check the service-role key, insert the default row through the store
(`insert(..).select().single()`, modelled by the `store` parameter), map a
foreign-key violation (`code 23503`) to its dedicated message, any other
database error to a generic one. -/
def createSession (serviceRoleKey : Option String)
    (store : SessionInsert → Except DbError SessionData) (userId : String) :
    ActionResponse :=
  if jsStringOr serviceRoleKey "" = "" then
    { success := false
      error := some "Server Configuration Error: SUPABASE_SERVICE_ROLE_KEY is missing." }
  else
    match store (sessionDefaults userId) with
    | .error e =>
        if e.code = "23503" then
          { success := false
            error := some "Auth Error: The database requires a registered user. Anonymous sign-ins are disabled and random IDs are not allowed." }
        else
          { success := false, error := some ("Database Error: " ++ e.message) }
    | .ok s => { success := true, data := some s }

/-- The `disabled` predicate of the chat input field in `ChatUI`
(src/unnamed/part_002 line 384): disabled exactly when the state is neither
`WAITING_FOR_INFO` nor `FINISHED`. -/
def inputDisabled (s : WorkflowState) : Bool :=
  s ≠ .WAITING_FOR_INFO && s ≠ .FINISHED

/-- Number of research (Pedro) calls in a call trace: `generateContent`
invocations issued with Pedro's system instruction. -/
def countResearchCalls (calls : List (String × String)) : Nat :=
  (calls.filter (fun c => c.1 = PEDRO_SYSTEM_PROMPT)).length

/-- Number of `system`-role messages in a history. -/
def sysCount (l : List ChatMessage) : Nat :=
  l.countP (fun m => m.role = AgentRole.system)

/-! ### Structural lemmas about the flow operations -/

lemma juan_ne_pedro : JUAN_SYSTEM_PROMPT ≠ PEDRO_SYSTEM_PROMPT := by decide

lemma jsStringOr_ne_empty (t : Option String) (fb : String) (hfb : fb ≠ "") :
    jsStringOr t fb ≠ "" := by
  unfold jsStringOr
  match t with
  | none => exact hfb
  | some s =>
      by_cases hs : s = "" <;> simp [hs, hfb]

/-- All rows a flow state has persisted (current row and recorded writes)
satisfy `Q`. -/
def StOk (Q : SessionData → Prop) (st : FlowSt) : Prop :=
  Q st.persisted ∧ ∀ w ∈ st.writes, Q w

lemma StOk_doUpdate {Q : SessionData → Prop} {st : FlowSt} {u : SessionUpdate}
    (h : StOk Q st) (hu : Q (applyUpdate st.persisted u)) : StOk Q (updateState st u) := by
  refine ⟨hu, ?_⟩
  intro w hw
  simp only [updateState, List.mem_append, List.mem_singleton] at hw
  rcases hw with hw | rfl
  · exact h.2 w hw
  · exact hu

lemma StOk_genCall {Q : SessionData → Prop} {st : FlowSt} (h : StOk Q st)
    (ai : GenAI) (sys c : String) : StOk Q (genCall ai st sys c).1 := h

/-- Claim C4's invariant on a single persisted row. -/
def lenEq (s : SessionData) : Prop := s.research_results.length = s.research_counter

lemma lenEq_neutral {s : SessionData} {u : SessionUpdate} (h : lenEq s)
    (hr : u.research_results = none) (hc : u.research_counter = none) :
    lenEq (applyUpdate s u) := by
  simpa [lenEq, applyUpdate, hr, hc] using h

lemma StOk_doUpdate_lenEq_neutral {st : FlowSt} {u : SessionUpdate}
    (h : StOk lenEq st) (hr : u.research_results = none) (hc : u.research_counter = none) :
    StOk lenEq (updateState st u) :=
  StOk_doUpdate h (lenEq_neutral h.1 hr hc)

lemma StOk_appendMessage_lenEq {st : FlowSt} {m : ChatMessage} {hist : List ChatMessage}
    (h : StOk lenEq st) : StOk lenEq (appendMessage m hist st).2 :=
  StOk_doUpdate_lenEq_neutral h rfl rfl

lemma StOk_doUpdate_lenEq_research {st : FlowSt} {u : SessionUpdate} {rs : List String} {n : Nat}
    (h : StOk lenEq st) (hu : rs.length = n)
    (hr : u.research_results = some rs) (hc : u.research_counter = some n) :
    StOk lenEq (updateState st u) :=
  StOk_doUpdate h (by simp [lenEq, applyUpdate, hr, hc, hu])

lemma StOk_catchAgent_lenEq {st : FlowSt} {hist : List ChatMessage} {e : String} {now : Nat}
    (h : StOk lenEq st) : StOk lenEq (catchAgent st hist e now) :=
  StOk_appendMessage_lenEq h

lemma juanPhase_lenEq {ai : GenAI} {sess : SessionData} {m : String} {now : Nat}
    {st : FlowSt} {hist : List ChatMessage} {results : List String}
    (h : StOk lenEq st) : StOk lenEq (juanPhase ai sess m now st hist results).1 := by
  simp only [juanPhase]
  have h0 : StOk lenEq (updateState st { current_state := some .START_REPORT }) :=
    StOk_doUpdate_lenEq_neutral h rfl rfl
  split
  · exact StOk_catchAgent_lenEq (StOk_genCall h0 _ _ _)
  · exact StOk_doUpdate_lenEq_neutral
      (StOk_appendMessage_lenEq (StOk_genCall h0 _ _ _)) rfl rfl

lemma agentPhase_lenEq {ai : GenAI} {sess : SessionData} {m : String} {now : Nat}
    {st : FlowSt} {hist : List ChatMessage} {results : List String} {counter : Nat}
    (h : StOk lenEq st) (hrc : results.length = counter) :
    StOk lenEq (agentPhase ai sess m now st hist results counter).1 := by
  simp only [agentPhase]
  split
  · exact StOk_catchAgent_lenEq (StOk_genCall h _ _ _)
  · split
    · split
      · exact StOk_catchAgent_lenEq (StOk_genCall
          (StOk_doUpdate_lenEq_research (StOk_appendMessage_lenEq (StOk_genCall h _ _ _))
            (by simp [hrc]) rfl rfl) _ _ _)
      · exact juanPhase_lenEq
          (StOk_doUpdate_lenEq_research
            (StOk_appendMessage_lenEq (StOk_genCall
              (StOk_doUpdate_lenEq_research (StOk_appendMessage_lenEq (StOk_genCall h _ _ _))
                (by simp [hrc]) rfl rfl) _ _ _))
            (by simp [hrc]) rfl rfl)
    · exact juanPhase_lenEq
        (StOk_doUpdate_lenEq_research (StOk_appendMessage_lenEq (StOk_genCall h _ _ _))
          (by simp [hrc]) rfl rfl)

/-! writes-extension lemmas: every flow operation only appends to the
write trace. -/

lemma writesExt_trans {a b c : FlowSt}
    (h1 : ∃ t, b.writes = a.writes ++ t) (h2 : ∃ t, c.writes = b.writes ++ t) :
    ∃ t, c.writes = a.writes ++ t := by
  obtain ⟨t1, e1⟩ := h1
  obtain ⟨t2, e2⟩ := h2
  exact ⟨t1 ++ t2, by rw [e2, e1, List.append_assoc]⟩

lemma writesExt_doUpdate {st : FlowSt} {u : SessionUpdate} :
    ∃ t, (updateState st u).writes = st.writes ++ t := ⟨_, rfl⟩

lemma writesExt_appendMessage {st : FlowSt} {m : ChatMessage} {hist : List ChatMessage} :
    ∃ t, ((appendMessage m hist st).2).writes = st.writes ++ t := ⟨_, rfl⟩

lemma writesExt_genCall {st : FlowSt} {ai : GenAI} {sys c : String} :
    ∃ t, ((genCall ai st sys c).1).writes = st.writes ++ t :=
  ⟨[], (List.append_nil _).symm⟩

lemma writesExt_catchAgent {st : FlowSt} {hist : List ChatMessage} {e : String} {now : Nat} :
    ∃ t, (catchAgent st hist e now).writes = st.writes ++ t := ⟨_, rfl⟩

lemma juanPhase_writesExt {ai : GenAI} {sess : SessionData} {m : String} {now : Nat}
    {st : FlowSt} {hist : List ChatMessage} {results : List String} :
    ∃ t, (juanPhase ai sess m now st hist results).1.writes = st.writes ++ t := by
  simp only [juanPhase]
  split
  · exact writesExt_trans (writesExt_trans writesExt_doUpdate writesExt_genCall)
      writesExt_catchAgent
  · exact writesExt_trans
      (writesExt_trans (writesExt_trans writesExt_doUpdate writesExt_genCall)
        writesExt_appendMessage)
      writesExt_doUpdate

lemma agentPhase_writesExt {ai : GenAI} {sess : SessionData} {m : String} {now : Nat}
    {st : FlowSt} {hist : List ChatMessage} {results : List String} {counter : Nat} :
    ∃ t, (agentPhase ai sess m now st hist results counter).1.writes = st.writes ++ t := by
  simp only [agentPhase]
  split
  · exact writesExt_trans writesExt_genCall writesExt_catchAgent
  · split
    · split
      · exact writesExt_trans
          (writesExt_trans
            (writesExt_trans (writesExt_trans writesExt_genCall writesExt_appendMessage)
              writesExt_doUpdate)
            writesExt_genCall)
          writesExt_catchAgent
      · exact writesExt_trans
          (writesExt_trans
            (writesExt_trans
              (writesExt_trans
                (writesExt_trans (writesExt_trans writesExt_genCall writesExt_appendMessage)
                  writesExt_doUpdate)
                writesExt_genCall)
              writesExt_appendMessage)
            writesExt_doUpdate)
          juanPhase_writesExt
    · exact writesExt_trans
        (writesExt_trans (writesExt_trans writesExt_genCall writesExt_appendMessage)
          writesExt_doUpdate)
        juanPhase_writesExt

/-! Preservation of row predicates that are insensitive to every update the
agent pipeline performs (no update touches `company_info`, and none sets the
state back to `WAITING_FOR_INFO`). -/

/-- `Q` survives any partial update that leaves `company_info` alone and does
not set `current_state` to `WAITING_FOR_INFO`. -/
def UpdOk (Q : SessionData → Prop) : Prop :=
  ∀ s u, u.company_info = none →
    (∀ w, u.current_state = some w → w ≠ WorkflowState.WAITING_FOR_INFO) →
    Q s → Q (applyUpdate s u)

lemma ne_waiting_of_some {v : WorkflowState} (hv : v ≠ WorkflowState.WAITING_FOR_INFO) :
    ∀ w : WorkflowState, some v = some w → w ≠ WorkflowState.WAITING_FOR_INFO := by
  intro w h
  cases h
  exact hv

lemma ne_waiting_of_none :
    ∀ w : WorkflowState, (none : Option WorkflowState) = some w →
      w ≠ WorkflowState.WAITING_FOR_INFO := by
  intro w h
  cases h

lemma StOk_doUpdate_upd {Q : SessionData → Prop} {st : FlowSt} {u : SessionUpdate}
    (hQ : UpdOk Q) (h : StOk Q st) (h1 : u.company_info = none)
    (h2 : ∀ w, u.current_state = some w → w ≠ WorkflowState.WAITING_FOR_INFO) :
    StOk Q (updateState st u) :=
  StOk_doUpdate h (hQ _ _ h1 h2 h.1)

lemma StOk_appendMessage_upd {Q : SessionData → Prop} {st : FlowSt}
    {m : ChatMessage} {hist : List ChatMessage} (hQ : UpdOk Q) (h : StOk Q st) :
    StOk Q (appendMessage m hist st).2 :=
  StOk_doUpdate_upd hQ h rfl ne_waiting_of_none

lemma StOk_catchAgent_upd {Q : SessionData → Prop} {st : FlowSt}
    {hist : List ChatMessage} {e : String} {now : Nat} (hQ : UpdOk Q) (h : StOk Q st) :
    StOk Q (catchAgent st hist e now) :=
  StOk_appendMessage_upd hQ h

lemma juanPhase_upd {Q : SessionData → Prop} {ai : GenAI} {sess : SessionData}
    {m : String} {now : Nat} {st : FlowSt} {hist : List ChatMessage} {results : List String}
    (hQ : UpdOk Q) (h : StOk Q st) : StOk Q (juanPhase ai sess m now st hist results).1 := by
  simp only [juanPhase]
  split
  · exact StOk_catchAgent_upd hQ (StOk_genCall
      (StOk_doUpdate_upd hQ h rfl (ne_waiting_of_some (by decide))) _ _ _)
  · exact StOk_doUpdate_upd hQ
      (StOk_appendMessage_upd hQ (StOk_genCall
        (StOk_doUpdate_upd hQ h rfl (ne_waiting_of_some (by decide))) _ _ _))
      rfl (ne_waiting_of_some (by decide))

lemma agentPhase_upd {Q : SessionData → Prop} {ai : GenAI} {sess : SessionData}
    {m : String} {now : Nat} {st : FlowSt} {hist : List ChatMessage}
    {results : List String} {counter : Nat}
    (hQ : UpdOk Q) (h : StOk Q st) :
    StOk Q (agentPhase ai sess m now st hist results counter).1 := by
  simp only [agentPhase]
  split
  · exact StOk_catchAgent_upd hQ (StOk_genCall h _ _ _)
  · split
    · split
      · exact StOk_catchAgent_upd hQ (StOk_genCall
          (StOk_doUpdate_upd hQ
            (StOk_appendMessage_upd hQ (StOk_genCall h _ _ _))
            rfl (ne_waiting_of_some (by decide))) _ _ _)
      · exact juanPhase_upd hQ
          (StOk_doUpdate_upd hQ
            (StOk_appendMessage_upd hQ (StOk_genCall
              (StOk_doUpdate_upd hQ
                (StOk_appendMessage_upd hQ (StOk_genCall h _ _ _))
                rfl (ne_waiting_of_some (by decide))) _ _ _))
            rfl ne_waiting_of_none)
    · exact juanPhase_upd hQ
        (StOk_doUpdate_upd hQ
          (StOk_appendMessage_upd hQ (StOk_genCall h _ _ _))
          rfl (ne_waiting_of_some (by decide)))

/-- Persisted-row-only variant of `StOk` (for facts that need not hold of
rows persisted before some point of the invocation). -/
def POk (Q : SessionData → Prop) (st : FlowSt) : Prop := Q st.persisted

lemma POk_doUpdate_upd {Q : SessionData → Prop} {st : FlowSt} {u : SessionUpdate}
    (hQ : UpdOk Q) (h : POk Q st) (h1 : u.company_info = none)
    (h2 : ∀ w, u.current_state = some w → w ≠ WorkflowState.WAITING_FOR_INFO) :
    POk Q (updateState st u) :=
  hQ _ _ h1 h2 h

lemma POk_genCall {Q : SessionData → Prop} {st : FlowSt} (h : POk Q st)
    (ai : GenAI) (sys c : String) : POk Q (genCall ai st sys c).1 := h

lemma POk_appendMessage_upd {Q : SessionData → Prop} {st : FlowSt}
    {m : ChatMessage} {hist : List ChatMessage} (hQ : UpdOk Q) (h : POk Q st) :
    POk Q (appendMessage m hist st).2 :=
  POk_doUpdate_upd hQ h rfl ne_waiting_of_none

lemma POk_catchAgent_upd {Q : SessionData → Prop} {st : FlowSt}
    {hist : List ChatMessage} {e : String} {now : Nat} (hQ : UpdOk Q) (h : POk Q st) :
    POk Q (catchAgent st hist e now) :=
  POk_appendMessage_upd hQ h

lemma juanPhase_pok {Q : SessionData → Prop} {ai : GenAI} {sess : SessionData}
    {m : String} {now : Nat} {st : FlowSt} {hist : List ChatMessage} {results : List String}
    (hQ : UpdOk Q) (h : POk Q st) : POk Q (juanPhase ai sess m now st hist results).1 := by
  simp only [juanPhase]
  split
  · exact POk_catchAgent_upd hQ (POk_genCall
      (POk_doUpdate_upd hQ h rfl (ne_waiting_of_some (by decide))) _ _ _)
  · exact POk_doUpdate_upd hQ
      (POk_appendMessage_upd hQ (POk_genCall
        (POk_doUpdate_upd hQ h rfl (ne_waiting_of_some (by decide))) _ _ _))
      rfl (ne_waiting_of_some (by decide))

lemma agentPhase_pok {Q : SessionData → Prop} {ai : GenAI} {sess : SessionData}
    {m : String} {now : Nat} {st : FlowSt} {hist : List ChatMessage}
    {results : List String} {counter : Nat}
    (hQ : UpdOk Q) (h : POk Q st) :
    POk Q (agentPhase ai sess m now st hist results counter).1 := by
  simp only [agentPhase]
  split
  · exact POk_catchAgent_upd hQ (POk_genCall h _ _ _)
  · split
    · split
      · exact POk_catchAgent_upd hQ (POk_genCall
          (POk_doUpdate_upd hQ
            (POk_appendMessage_upd hQ (POk_genCall h _ _ _))
            rfl (ne_waiting_of_some (by decide))) _ _ _)
      · exact juanPhase_pok hQ
          (POk_doUpdate_upd hQ
            (POk_appendMessage_upd hQ (POk_genCall
              (POk_doUpdate_upd hQ
                (POk_appendMessage_upd hQ (POk_genCall h _ _ _))
                rfl (ne_waiting_of_some (by decide))) _ _ _))
            rfl ne_waiting_of_none)
    · exact juanPhase_pok hQ
        (POk_doUpdate_upd hQ
          (POk_appendMessage_upd hQ (POk_genCall h _ _ _))
          rfl (ne_waiting_of_some (by decide)))

/-! Chat-history monotonicity: the recorded writes form a chain under the
list-prefix order. -/

/-- The writes recorded so far form a prefix chain ending (inclusively) at
the currently persisted row's history. -/
def ChainOk (st : FlowSt) : Prop :=
  (∀ w ∈ st.writes, w.chat_history <+: st.persisted.chat_history) ∧
  st.writes.Pairwise (fun a b => a.chat_history <+: b.chat_history)

lemma ChainOk_doUpdate {st : FlowSt} {u : SessionUpdate} (h : ChainOk st)
    (hu : st.persisted.chat_history <+: (applyUpdate st.persisted u).chat_history) :
    ChainOk (updateState st u) := by
  constructor
  · intro w hw
    simp only [updateState, List.mem_append, List.mem_singleton] at hw
    rcases hw with hw | rfl
    · exact (h.1 w hw).trans hu
    · exact List.prefix_refl _
  · refine List.pairwise_append.2 ⟨h.2, List.pairwise_singleton _ _, ?_⟩
    intro a ha b hb
    simp only [List.mem_singleton] at hb
    subst hb
    exact (h.1 a ha).trans hu

lemma ChainOk_doUpdate_nochat {st : FlowSt} {u : SessionUpdate} (h : ChainOk st)
    (hc : u.chat_history = none) : ChainOk (updateState st u) :=
  ChainOk_doUpdate h (by simp [applyUpdate, hc])

lemma ChainOk_genCall {st : FlowSt} (h : ChainOk st) (ai : GenAI) (sys c : String) :
    ChainOk (genCall ai st sys c).1 := h

lemma ChainOk_appendMessage {st : FlowSt} {m : ChatMessage} {hist : List ChatMessage}
    (h : ChainOk st) (hh : hist = st.persisted.chat_history) :
    ChainOk (appendMessage m hist st).2 :=
  ChainOk_doUpdate h (by subst hh; simp [applyUpdate])

lemma ChainOk_catchAgent {st : FlowSt} {hist : List ChatMessage} {e : String} {now : Nat}
    (h : ChainOk st) (hh : hist = st.persisted.chat_history) :
    ChainOk (catchAgent st hist e now) :=
  ChainOk_appendMessage h hh

lemma genCall_persisted {st : FlowSt} {ai : GenAI} {sys c : String} :
    ((genCall ai st sys c).1).persisted = st.persisted := rfl

lemma doUpdate_chat_nochat {st : FlowSt} {u : SessionUpdate} (hc : u.chat_history = none) :
    (updateState st u).persisted.chat_history = st.persisted.chat_history := by
  simp [updateState, applyUpdate, hc]

lemma appendMessage_chat {st : FlowSt} {m : ChatMessage} {hist : List ChatMessage} :
    ((appendMessage m hist st).2).persisted.chat_history = hist ++ [m] := by
  simp [appendMessage, updateState, applyUpdate]

lemma appendMessage_fst {st : FlowSt} {m : ChatMessage} {hist : List ChatMessage} :
    (appendMessage m hist st).1 = hist ++ [m] := rfl

lemma juanPhase_chain {ai : GenAI} {sess : SessionData} {m : String} {now : Nat}
    {st : FlowSt} {hist : List ChatMessage} {results : List String}
    (h : ChainOk st) (hh : hist = st.persisted.chat_history) :
    ChainOk (juanPhase ai sess m now st hist results).1 := by
  simp only [juanPhase]
  have h0 : ChainOk (updateState st { current_state := some .START_REPORT }) :=
    ChainOk_doUpdate_nochat h rfl
  have hh0 : hist =
      (updateState st { current_state := some .START_REPORT }).persisted.chat_history := by
    rw [hh, doUpdate_chat_nochat rfl]
  split
  · exact ChainOk_catchAgent (ChainOk_genCall h0 _ _ _) hh0
  · exact ChainOk_doUpdate_nochat
      (ChainOk_appendMessage (ChainOk_genCall h0 _ _ _) hh0) rfl

lemma agentPhase_chain {ai : GenAI} {sess : SessionData} {m : String} {now : Nat}
    {st : FlowSt} {hist : List ChatMessage} {results : List String} {counter : Nat}
    (h : ChainOk st) (hh : hist = st.persisted.chat_history) :
    ChainOk (agentPhase ai sess m now st hist results counter).1 := by
  simp only [agentPhase]
  split
  · exact ChainOk_catchAgent (ChainOk_genCall h _ _ _) hh
  · split
    · split
      · refine ChainOk_catchAgent (ChainOk_genCall
          (ChainOk_doUpdate_nochat
            (ChainOk_appendMessage (ChainOk_genCall h _ _ _) hh) rfl) _ _ _) ?_
        simp [appendMessage, updateState, applyUpdate, genCall]
      · refine juanPhase_chain
          (ChainOk_doUpdate_nochat
            (ChainOk_appendMessage
              (ChainOk_genCall
                (ChainOk_doUpdate_nochat
                  (ChainOk_appendMessage (ChainOk_genCall h _ _ _) hh) rfl) _ _ _) ?_)
            rfl) ?_
        · simp [appendMessage, updateState, applyUpdate, genCall]
        · simp [appendMessage, updateState, applyUpdate, genCall]
    · refine juanPhase_chain
        (ChainOk_doUpdate_nochat
          (ChainOk_appendMessage (ChainOk_genCall h _ _ _) hh) rfl) ?_
      simp [appendMessage, updateState, applyUpdate, genCall]

lemma sysCount_snoc_nonsys (l : List ChatMessage) (m : ChatMessage)
    (hm : m.role ≠ AgentRole.system) : sysCount (l ++ [m]) = sysCount l := by
  simp [sysCount, List.countP_append, List.countP_cons, hm]

lemma sysCount_snoc_sys (l : List ChatMessage) (e : String) (now : Nat) :
    sysCount (l ++ [errMsg e now]) = sysCount l + 1 := by
  simp [sysCount, errMsg, List.countP_append, List.countP_cons]

def ErrShape (n : Nat) (e : String) (now : Nat) (st1 : FlowSt) : Prop :=
  ∃ prev : SessionData,
    st1.persisted = { prev with chat_history := prev.chat_history ++ [errMsg e now] }
    ∧ st1.writes.getLast? = some st1.persisted
    ∧ sysCount prev.chat_history = n

lemma catchAgent_errShape {st : FlowSt} {hist : List ChatMessage} {e : String} {now : Nat}
    {n : Nat} (hh : hist = st.persisted.chat_history)
    (hn : sysCount st.persisted.chat_history = n) :
    ErrShape n e now (catchAgent st hist e now) := by
  subst hh
  refine ⟨st.persisted, rfl, ?_, hn⟩
  simp [catchAgent, appendMessage, updateState]

lemma juanPhase_err {ai : GenAI} {sess : SessionData} {m : String} {now : Nat}
    {st : FlowSt} {hist : List ChatMessage} {results : List String} {n : Nat} {e : String}
    (hh : hist = st.persisted.chat_history)
    (hn : sysCount st.persisted.chat_history = n)
    (he : (juanPhase ai sess m now st hist results).2 = some e) :
    ErrShape n e now (juanPhase ai sess m now st hist results).1 := by
  simp only [juanPhase] at he ⊢
  cases hg : (genCall ai (updateState st { current_state := some WorkflowState.START_REPORT })
      JUAN_SYSTEM_PROMPT (juanPrompt sess.company_info m results)).2 with
  | error e1 =>
      simp only [hg] at he ⊢
      obtain rfl : e1 = e := by injection he
      exact catchAgent_errShape
        (by rw [hh]; simp [genCall, updateState, applyUpdate])
        (by rw [← hn]; simp [genCall, updateState, applyUpdate])
  | ok t => simp [hg] at he

lemma sysCount_snoc_pedro (l : List ChatMessage) (c : String) (ts : Nat) :
    sysCount (l ++ [{ role := AgentRole.pedro, content := c, timestamp := ts }]) = sysCount l := by
  simp [sysCount, List.countP_append, List.countP_cons]

lemma sysCount_snoc_user (l : List ChatMessage) (c : String) (ts : Nat) :
    sysCount (l ++ [{ role := AgentRole.user, content := c, timestamp := ts }]) = sysCount l := by
  simp [sysCount, List.countP_append, List.countP_cons]

lemma sysCount_snoc_juan (l : List ChatMessage) (c : String) (ts : Nat) :
    sysCount (l ++ [{ role := AgentRole.juan, content := c, timestamp := ts }]) = sysCount l := by
  simp [sysCount, List.countP_append, List.countP_cons]

lemma agentPhase_err {ai : GenAI} {sess : SessionData} {m : String} {now : Nat}
    {st : FlowSt} {hist : List ChatMessage} {results : List String} {counter : Nat}
    {n : Nat} {e : String}
    (hh : hist = st.persisted.chat_history)
    (hn : sysCount st.persisted.chat_history = n)
    (he : (agentPhase ai sess m now st hist results counter).2 = some e) :
    ErrShape n e now (agentPhase ai sess m now st hist results counter).1 := by
  subst hh
  simp only [agentPhase] at he ⊢
  cases hg1 : (genCall ai st PEDRO_SYSTEM_PROMPT (pedroPrompt1 sess.company_info m)).2 with
  | error e1 =>
      simp only [hg1] at he ⊢
      obtain rfl : e1 = e := by injection he
      exact catchAgent_errShape rfl hn
  | ok t1 =>
      simp only [hg1] at he ⊢
      by_cases hlt : counter + 1 < 2
      · simp only [if_pos hlt] at he ⊢
        cases hg2 : (genCall ai
            (updateState (appendMessage { role := AgentRole.pedro, content := jsStringOr t1 "Sin respuesta técnica.", timestamp := now } st.persisted.chat_history (genCall ai st PEDRO_SYSTEM_PROMPT (pedroPrompt1 sess.company_info m)).1).2
              { research_results := some (results ++ [jsStringOr t1 "Sin respuesta técnica."])
                research_counter := some (counter + 1)
                current_state := some WorkflowState.DECIDE_FLOW })
            PEDRO_SYSTEM_PROMPT (pedroPrompt2 (jsStringOr t1 "Sin respuesta técnica."))).2 with
        | error e2 =>
            simp only [hg2] at he ⊢
            obtain rfl : e2 = e := by injection he
            refine catchAgent_errShape ?_ ?_
            · simp [genCall, updateState, applyUpdate, appendMessage]
            · simp only [genCall, updateState, applyUpdate, appendMessage, Option.getD_some, Option.getD_none, sysCount_snoc_pedro]
              exact hn
        | ok t2 =>
            simp only [hg2] at he ⊢
            refine juanPhase_err ?_ ?_ he
            · simp [genCall, updateState, applyUpdate, appendMessage]
            · simp only [genCall, updateState, applyUpdate, appendMessage, Option.getD_some, Option.getD_none, sysCount_snoc_pedro]
              exact hn
      · simp only [if_neg hlt] at he ⊢
        refine juanPhase_err ?_ ?_ he
        · simp [genCall, updateState, applyUpdate, appendMessage]
        · simp only [genCall, updateState, applyUpdate, appendMessage, Option.getD_some, Option.getD_none, sysCount_snoc_pedro]
          exact hn

/-! Non-empty-content tracking for the implicit fallback-string claim. -/

/-- Rows whose research results are all non-empty and whose final report, if
set, is non-empty; the chat history extends `base` by messages whose
Pedro/Juan contents are non-empty. -/
def GoodSt (base : List ChatMessage) (st : FlowSt) : Prop :=
  (∃ suf, st.persisted.chat_history = base ++ suf ∧
      ∀ m ∈ suf, (m.role = AgentRole.pedro ∨ m.role = AgentRole.juan) → m.content ≠ "")
  ∧ (∀ r ∈ st.persisted.research_results, r ≠ "")
  ∧ (∀ t, st.persisted.report_final = some t → t ≠ "")

lemma GoodSt_doUpdate_neutral {base : List ChatMessage} {st : FlowSt} {u : SessionUpdate}
    (h : GoodSt base st) (h1 : u.chat_history = none) (h2 : u.research_results = none)
    (h3 : u.report_final = none) : GoodSt base (updateState st u) := by
  obtain ⟨⟨suf, hs, hsuf⟩, hr, hp⟩ := h
  refine ⟨⟨suf, ?_, hsuf⟩, ?_, ?_⟩
  · simp [updateState, applyUpdate, h1, hs]
  · simpa [updateState, applyUpdate, h2] using hr
  · simpa [updateState, applyUpdate, h3] using hp

lemma GoodSt_appendMessage {base : List ChatMessage} {st : FlowSt}
    {m : ChatMessage} {hist : List ChatMessage}
    (h : GoodSt base st) (hh : hist = st.persisted.chat_history)
    (hm : (m.role = AgentRole.pedro ∨ m.role = AgentRole.juan) → m.content ≠ "") :
    GoodSt base (appendMessage m hist st).2 := by
  subst hh
  obtain ⟨⟨suf, hs, hsuf⟩, hr, hp⟩ := h
  refine ⟨⟨suf ++ [m], ?_, ?_⟩, ?_, ?_⟩
  · simp [appendMessage, updateState, applyUpdate, hs]
  · intro x hx hrole
    rcases List.mem_append.1 hx with hx | hx
    · exact hsuf x hx hrole
    · rcases List.mem_singleton.1 hx with rfl
      exact hm hrole
  · simpa [appendMessage, updateState, applyUpdate] using hr
  · simpa [appendMessage, updateState, applyUpdate] using hp

lemma GoodSt_catchAgent {base : List ChatMessage} {st : FlowSt}
    {hist : List ChatMessage} {e : String} {now : Nat}
    (h : GoodSt base st) (hh : hist = st.persisted.chat_history) :
    GoodSt base (catchAgent st hist e now) :=
  GoodSt_appendMessage h hh (by intro hrole; rcases hrole with hrole | hrole <;> cases hrole)

lemma GoodSt_genCall {base : List ChatMessage} {st : FlowSt} (h : GoodSt base st)
    (ai : GenAI) (sys c : String) : GoodSt base (genCall ai st sys c).1 := h

lemma GoodSt_doUpdate_research {base : List ChatMessage} {st : FlowSt} {u : SessionUpdate}
    {rs : List String} (h : GoodSt base st)
    (h1 : u.chat_history = none) (h2 : u.research_results = some rs)
    (h3 : u.report_final = none) (hrs : ∀ r ∈ rs, r ≠ "") :
    GoodSt base (updateState st u) := by
  obtain ⟨⟨suf, hs, hsuf⟩, hr, hp⟩ := h
  refine ⟨⟨suf, ?_, hsuf⟩, ?_, ?_⟩
  · simp [updateState, applyUpdate, h1, hs]
  · simpa [updateState, applyUpdate, h2] using hrs
  · simpa [updateState, applyUpdate, h3] using hp

lemma GoodSt_doUpdate_report {base : List ChatMessage} {st : FlowSt} {u : SessionUpdate}
    {t : String} (h : GoodSt base st)
    (h1 : u.chat_history = none) (h2 : u.research_results = none)
    (h3 : u.report_final = some t) (ht : t ≠ "") :
    GoodSt base (updateState st u) := by
  obtain ⟨⟨suf, hs, hsuf⟩, hr, hp⟩ := h
  refine ⟨⟨suf, ?_, hsuf⟩, ?_, ?_⟩
  · simp [updateState, applyUpdate, h1, hs]
  · simpa [updateState, applyUpdate, h2] using hr
  · intro x hx
    simp [updateState, applyUpdate, h3] at hx
    subst hx
    exact ht

lemma juanPhase_good {base : List ChatMessage} {ai : GenAI} {sess : SessionData}
    {m : String} {now : Nat} {st : FlowSt} {hist : List ChatMessage} {results : List String}
    (h : GoodSt base st) (hh : hist = st.persisted.chat_history) :
    GoodSt base (juanPhase ai sess m now st hist results).1 := by
  subst hh
  simp only [juanPhase]
  split
  · exact GoodSt_catchAgent (GoodSt_genCall (GoodSt_doUpdate_neutral h rfl rfl rfl) _ _ _)
      (by simp [genCall, updateState, applyUpdate])
  · refine GoodSt_doUpdate_report
      (GoodSt_appendMessage (GoodSt_genCall (GoodSt_doUpdate_neutral h rfl rfl rfl) _ _ _)
        (by simp [genCall, updateState, applyUpdate])
        (fun _ => jsStringOr_ne_empty _ _ (by decide)))
      rfl rfl rfl (jsStringOr_ne_empty _ _ (by decide))

lemma agentPhase_good {base : List ChatMessage} {ai : GenAI} {sess : SessionData}
    {m : String} {now : Nat} {st : FlowSt} {hist : List ChatMessage}
    {results : List String} {counter : Nat}
    (h : GoodSt base st) (hh : hist = st.persisted.chat_history)
    (hres : ∀ r ∈ results, r ≠ "") :
    GoodSt base (agentPhase ai sess m now st hist results counter).1 := by
  subst hh
  simp only [agentPhase]
  have hres1 : ∀ t1, ∀ r ∈ results ++ [jsStringOr t1 "Sin respuesta técnica."], r ≠ "" := by
    intro t1 r hr
    rcases List.mem_append.1 hr with hr | hr
    · exact hres r hr
    · rcases List.mem_singleton.1 hr with rfl
      exact jsStringOr_ne_empty _ _ (by decide)
  split
  · exact GoodSt_catchAgent (GoodSt_genCall h _ _ _) rfl
  · split
    · split
      · refine GoodSt_catchAgent (GoodSt_genCall
          (GoodSt_doUpdate_research
            (GoodSt_appendMessage (GoodSt_genCall h _ _ _) rfl
              (fun _ => jsStringOr_ne_empty _ _ (by decide)))
            rfl rfl rfl (hres1 _)) _ _ _) ?_
        simp [genCall, updateState, applyUpdate, appendMessage]
      · refine juanPhase_good
          (GoodSt_doUpdate_research
            (GoodSt_appendMessage
              (GoodSt_genCall
                (GoodSt_doUpdate_research
                  (GoodSt_appendMessage (GoodSt_genCall h _ _ _) rfl
                    (fun _ => jsStringOr_ne_empty _ _ (by decide)))
                  rfl rfl rfl (hres1 _)) _ _ _)
              (by simp [genCall, updateState, applyUpdate, appendMessage])
              (fun _ => jsStringOr_ne_empty _ _ (by decide)))
            rfl rfl rfl ?_) ?_
        · intro r hr
          rcases List.mem_append.1 hr with hr | hr
          · exact hres1 _ r hr
          · rcases List.mem_singleton.1 hr with rfl
            exact jsStringOr_ne_empty _ _ (by decide)
        · simp [genCall, updateState, applyUpdate, appendMessage]
    · refine juanPhase_good
        (GoodSt_doUpdate_research
          (GoodSt_appendMessage (GoodSt_genCall h _ _ _) rfl
            (fun _ => jsStringOr_ne_empty _ _ (by decide)))
          rfl rfl rfl (hres1 _)) ?_
      simp [genCall, updateState, applyUpdate, appendMessage]

/-! ### Concrete instances used by witnesses and counterexamples -/

/-- Environment with a configured Gemini credential. -/
def wEnv : GenEnv := { apiKey := some "k", geminiApiKey := none }

/-- A client whose every call succeeds with text "resp". -/
def wAi : GenAI := fun _ _ _ => Except.ok (some "resp")

/-- A client whose every call throws "boom". -/
def wAiFail : GenAI := fun _ _ _ => Except.error "boom"

/-- A freshly created session (the row `createSession` inserts). -/
def wFresh : SessionData :=
  { id := "s1", user_id := "u1", chat_history := [], company_info := none
    research_results := [], report_final := none
    current_state := .WAITING_FOR_INFO, research_counter := 0 }

def wDb : List (String × SessionData) := [("s1", wFresh)]

/-- A session that has completed the workflow. -/
def wFinished : SessionData :=
  { id := "s2", user_id := "u1"
    chat_history := []
    company_info := some "empresa"
    research_results := ["a", "b"], report_final := some "rep"
    current_state := .FINISHED, research_counter := 2 }

def wDbFin : List (String × SessionData) := [("s2", wFinished)]

/-! ### Claim theorems -/

/-- C1: with a client that answers every call, a run entering the research
phase with `research_counter = 0` makes exactly 2 research (Pedro) calls,
ends with the counter at 2 and appends two strings to `research_results`;
a run entering with `research_counter ≥ 2` makes exactly 1 research call,
because `researchCounter < 2` is checked only after the first call's
increment. -/
theorem C1_research_call_counts (env : GenEnv) (ai : GenAI)
    (db : List (String × SessionData)) (sid msg : String) (now : Nat)
    (f : Nat → Option String) (session : SessionData) (k : String)
    (hk : envKey env = some k) (hs : lookupSession db sid = some session)
    (hf : ∀ n sys p, ai n sys p = Except.ok (f n)) :
    (session.research_counter = 0 →
      countResearchCalls (runConsultancyFlow env ai db sid msg now).calls = 2 ∧
      ∃ s, (runConsultancyFlow env ai db sid msg now).result.data = some s ∧
        s.research_counter = 2 ∧
        s.research_results.length = session.research_results.length + 2) ∧
    (2 ≤ session.research_counter →
      countResearchCalls (runConsultancyFlow env ai db sid msg now).calls = 1) := by
  constructor
  · intro h0
    by_cases hw : session.current_state = WorkflowState.WAITING_FOR_INFO <;>
      simp [runConsultancyFlow, hk, hs, agentPhase, juanPhase, genCall, appendMessage,
        updateState, applyUpdate, hf, h0, hw, countResearchCalls, List.filter, juan_ne_pedro]
  · intro h2
    have hnlt : ¬ (session.research_counter + 1 < 2) := by omega
    by_cases hw : session.current_state = WorkflowState.WAITING_FOR_INFO <;>
      simp [runConsultancyFlow, hk, hs, agentPhase, juanPhase, genCall, appendMessage,
        updateState, applyUpdate, hf, hw, hnlt, countResearchCalls, List.filter, juan_ne_pedro]

theorem C1_research_call_counts_witness :
    countResearchCalls (runConsultancyFlow wEnv wAi wDb "s1" "hola" 0).calls = 2 ∧
    countResearchCalls (runConsultancyFlow wEnv wAi wDbFin "s2" "otra" 0).calls = 1 :=
  ⟨((C1_research_call_counts wEnv wAi wDb "s1" "hola" 0 (fun _ => some "resp") wFresh "k"
      rfl rfl (fun _ _ _ => rfl)).1 rfl).1,
   (C1_research_call_counts wEnv wAi wDbFin "s2" "otra" 0 (fun _ => some "resp") wFinished "k"
      rfl rfl (fun _ _ _ => rfl)).2 (by decide)⟩

/-- C4: if `research_results.length = research_counter` held for the row the
invocation read, then it holds for every row the invocation persists. -/
theorem C4_len_eq_counter (env : GenEnv) (ai : GenAI)
    (db : List (String × SessionData)) (sid msg : String) (now : Nat)
    (k : String) (session : SessionData)
    (hk : envKey env = some k) (hs : lookupSession db sid = some session)
    (hlen : session.research_results.length = session.research_counter) :
    ∀ w ∈ (runConsultancyFlow env ai db sid msg now).writes,
      w.research_results.length = w.research_counter := by
  have hbase : StOk lenEq { persisted := session, writes := [], calls := [] } :=
    ⟨hlen, by simp⟩
  simp only [runConsultancyFlow, hk, hs]
  by_cases hw : session.current_state = WorkflowState.WAITING_FOR_INFO
  · simp only [hw, if_pos rfl]
    exact fun w hw' =>
      (agentPhase_lenEq
        (StOk_doUpdate_lenEq_neutral (StOk_appendMessage_lenEq hbase) rfl rfl) hlen).2 w hw'
  · simp only [if_neg hw]
    exact fun w hw' => (agentPhase_lenEq (StOk_appendMessage_lenEq hbase) hlen).2 w hw'

theorem C4_len_eq_counter_witness :
    wFresh.research_results.length = wFresh.research_counter ∧
    ∀ w ∈ (runConsultancyFlow wEnv wAi wDb "s1" "hola" 0).writes,
      w.research_results.length = w.research_counter :=
  ⟨rfl, C4_len_eq_counter wEnv wAi wDb "s1" "hola" 0 "k" wFresh rfl rfl rfl⟩

/-- C8: both public operations always return an explicit `ActionResponse`
value — success carrying data or failure carrying an error message — and the
missing-credential and unknown-session inputs in particular yield failure
values, not exceptions. -/
theorem C8_result_contract (env : GenEnv) (ai : GenAI)
    (db : List (String × SessionData)) (sid msg : String) (now : Nat)
    (serviceKey : Option String) (store : SessionInsert → Except DbError SessionData)
    (userId : String) :
    ((runConsultancyFlow env ai db sid msg now).result.success = true ∧
        (runConsultancyFlow env ai db sid msg now).result.data ≠ none ∨
      (runConsultancyFlow env ai db sid msg now).result.success = false ∧
        (runConsultancyFlow env ai db sid msg now).result.error ≠ none) ∧
    ((createSession serviceKey store userId).success = true ∧
        (createSession serviceKey store userId).data ≠ none ∨
      (createSession serviceKey store userId).success = false ∧
        (createSession serviceKey store userId).error ≠ none) ∧
    (envKey env = none →
      (runConsultancyFlow env ai db sid msg now).result =
        { success := false
          error := some "API_KEY is missing. Check your environment variables." }) ∧
    (∀ k, envKey env = some k → lookupSession db sid = none →
      (runConsultancyFlow env ai db sid msg now).result =
        { success := false, error := some "Session not found in database." }) := by
  refine ⟨?_, ?_, ?_, ?_⟩
  · cases hek : envKey env with
    | none => simp [runConsultancyFlow, hek]
    | some key =>
        cases hls : lookupSession db sid with
        | none => simp [runConsultancyFlow, hek, hls]
        | some session => simp [runConsultancyFlow, hek, hls]
  · unfold createSession
    split
    · simp
    · split
      · split <;> simp
      · simp
  · intro h
    simp [runConsultancyFlow, h]
  · intro k hk hls
    simp [runConsultancyFlow, hk, hls]

theorem C8_result_contract_witness :
    (runConsultancyFlow wEnv wAi wDb "s1" "hola" 0).result.success = true ∧
      (runConsultancyFlow wEnv wAi wDb "s1" "hola" 0).result.data ≠ none ∨
    (runConsultancyFlow wEnv wAi wDb "s1" "hola" 0).result.success = false ∧
      (runConsultancyFlow wEnv wAi wDb "s1" "hola" 0).result.error ≠ none :=
  (C8_result_contract wEnv wAi wDb "s1" "hola" 0 (some "srk")
    (fun _ => Except.error { code := "x", message := "y" }) "u1").1

/-- C9: when the store rejects the insert, `createSession` returns a failure
with no session data; a foreign-key violation (code 23503) gets its dedicated
auth message, any other database error the generic message, and the two
messages can never coincide. -/
theorem C9_create_session_errors (serviceKey : Option String)
    (store : SessionInsert → Except DbError SessionData) (userId : String) (e : DbError)
    (hkey : jsStringOr serviceKey "" ≠ "")
    (hstore : store (sessionDefaults userId) = Except.error e) :
    (createSession serviceKey store userId).success = false ∧
    (createSession serviceKey store userId).data = none ∧
    (e.code = "23503" →
      (createSession serviceKey store userId).error =
        some "Auth Error: The database requires a registered user. Anonymous sign-ins are disabled and random IDs are not allowed.") ∧
    (e.code ≠ "23503" →
      (createSession serviceKey store userId).error =
        some ("Database Error: " ++ e.message)) ∧
    (∀ m : String, "Database Error: " ++ m ≠
      "Auth Error: The database requires a registered user. Anonymous sign-ins are disabled and random IDs are not allowed.") := by
  refine ⟨?_, ?_, ?_, ?_, ?_⟩
  · simp [createSession, hkey, hstore]
    split <;> simp
  · simp [createSession, hkey, hstore]
    split <;> simp
  · intro hc
    simp [createSession, hkey, hstore, hc]
  · intro hc
    simp [createSession, hkey, hstore, hc]
  · intro m hcontra
    have hd : ("Database Error: ").data ++ m.data =
        ("Auth Error: The database requires a registered user. Anonymous sign-ins are disabled and random IDs are not allowed.").data := by
      rw [← String.data_append, hcontra]
    have hD : ("Database Error: ").data = 'D' :: ("atabase Error: ").data := rfl
    have hA : ("Auth Error: The database requires a registered user. Anonymous sign-ins are disabled and random IDs are not allowed.").data =
        'A' :: ("uth Error: The database requires a registered user. Anonymous sign-ins are disabled and random IDs are not allowed.").data := rfl
    rw [hD, hA, List.cons_append] at hd
    have : ('D' : Char) = 'A' := by injection hd
    exact absurd this (by decide)

theorem C9_create_session_errors_witness :
    jsStringOr (some "srk") "" ≠ "" ∧
    ((fun _ => Except.error { code := "23503", message := "fk" } :
        SessionInsert → Except DbError SessionData) (sessionDefaults "u1") =
      Except.error { code := "23503", message := "fk" }) ∧
    (createSession (some "srk")
      (fun _ => Except.error { code := "23503", message := "fk" }) "u1").success = false :=
  ⟨by decide, rfl,
    (C9_create_session_errors (some "srk")
      (fun _ => Except.error { code := "23503", message := "fk" }) "u1"
      { code := "23503", message := "fk" } (by decide) rfl).1⟩

lemma UpdOk_company_state (msg : String) :
    UpdOk (fun s => s.company_info = some msg ∧
      s.current_state ≠ WorkflowState.WAITING_FOR_INFO) := by
  intro s u h1 h2 hq
  constructor
  · simp only [applyUpdate, h1]
    exact hq.1
  · cases hcs : u.current_state with
    | none => simpa [applyUpdate, hcs] using hq.2
    | some w => simpa [applyUpdate, hcs] using h2 w hcs

lemma UpdOk_company_const (c : Option String) :
    UpdOk (fun s => s.company_info = c) := by
  intro s u h1 _ hq
  simp only [applyUpdate, h1]
  exact hq

/-- C5: a first message `M` sent to a `WAITING_FOR_INFO` session is stored:
the second persisted write sets `company_info := M` together with
`current_state := START_RESEARCH`, and the returned session still carries
`company_info = M` with a state that never returns to `WAITING_FOR_INFO`;
an invocation on a session not in `WAITING_FOR_INFO` never writes
`company_info`, so the field is set exactly once. -/
theorem C5_company_info_once (env : GenEnv) (ai : GenAI)
    (db : List (String × SessionData)) (sid msg : String) (now : Nat)
    (k : String) (session : SessionData)
    (hk : envKey env = some k) (hs : lookupSession db sid = some session)
    (hm : msg ≠ "") :
    (session.current_state = WorkflowState.WAITING_FOR_INFO →
      (runConsultancyFlow env ai db sid msg now).writes.tail.head? =
        some { session with
          chat_history := session.chat_history ++
            [{ role := .user, content := msg, timestamp := now }]
          company_info := some msg
          current_state := .START_RESEARCH } ∧
      ∀ s, (runConsultancyFlow env ai db sid msg now).result.data = some s →
        s.company_info = some msg ∧ s.current_state ≠ WorkflowState.WAITING_FOR_INFO) ∧
    (session.current_state ≠ WorkflowState.WAITING_FOR_INFO →
      ∀ w ∈ (runConsultancyFlow env ai db sid msg now).writes,
        w.company_info = session.company_info) := by
  constructor
  · intro hw
    simp only [runConsultancyFlow, hk, hs, hw, eq_self_iff_true, if_true]
    constructor
    · obtain ⟨t, ht⟩ := @agentPhase_writesExt ai session msg now
        (updateState (appendMessage { role := .user, content := msg, timestamp := now }
            session.chat_history { persisted := session, writes := [], calls := [] }).2
          { company_info := some msg, current_state := some .START_RESEARCH })
        ((appendMessage { role := .user, content := msg, timestamp := now }
            session.chat_history { persisted := session, writes := [], calls := [] }).1)
        session.research_results session.research_counter
      rw [ht]
      rfl
    · intro s hsd
      have hpok := @agentPhase_pok _ ai session msg now
        (updateState (appendMessage { role := .user, content := msg, timestamp := now }
            session.chat_history { persisted := session, writes := [], calls := [] }).2
          { company_info := some msg, current_state := some .START_RESEARCH })
        ((appendMessage { role := .user, content := msg, timestamp := now }
            session.chat_history { persisted := session, writes := [], calls := [] }).1)
        session.research_results session.research_counter
        (UpdOk_company_state msg)
        (by constructor <;> simp [POk, updateState, applyUpdate, appendMessage])
      rw [show s = (agentPhase ai session msg now
          (updateState (appendMessage { role := .user, content := msg, timestamp := now }
              session.chat_history { persisted := session, writes := [], calls := [] }).2
            { company_info := some msg, current_state := some .START_RESEARCH })
          (appendMessage { role := .user, content := msg, timestamp := now }
              session.chat_history { persisted := session, writes := [], calls := [] }).1
          session.research_results session.research_counter).1.persisted from
        by injection hsd.symm]
      exact hpok
  · intro hw
    simp only [runConsultancyFlow, hk, hs, if_neg hw]
    have hst : StOk (fun s => s.company_info = session.company_info)
        (appendMessage { role := .user, content := msg, timestamp := now }
          session.chat_history { persisted := session, writes := [], calls := [] }).2 := by
      constructor
      · simp [appendMessage, updateState, applyUpdate]
      · intro w hw'
        simp [appendMessage, updateState, applyUpdate] at hw'
        subst hw'
        simp
    exact fun w hw' =>
      (agentPhase_upd (UpdOk_company_const session.company_info) hst).2 w hw'

theorem C5_company_info_once_witness :
    "hola" ≠ "" ∧
    (runConsultancyFlow wEnv wAi wDb "s1" "hola" 0).writes.tail.head? =
      some { wFresh with
        chat_history := [{ role := .user, content := "hola", timestamp := 0 }]
        company_info := some "hola"
        current_state := .START_RESEARCH } := by
  have h := (C5_company_info_once wEnv wAi wDb "s1" "hola" 0 "k" wFresh rfl rfl
    (by decide)).1 rfl
  exact ⟨by decide, h.1⟩

/-- C6: within one invocation the persisted `chat_history` values form a
prefix chain: any earlier write's history is a prefix of any later write's
history — nothing is truncated or edited. -/
theorem C6_chat_history_append_only (env : GenEnv) (ai : GenAI)
    (db : List (String × SessionData)) (sid msg : String) (now : Nat)
    (k : String) (session : SessionData)
    (hk : envKey env = some k) (hs : lookupSession db sid = some session) :
    ∀ i j : Nat, i ≤ j → ∀ wi wj : SessionData,
      (runConsultancyFlow env ai db sid msg now).writes[i]? = some wi →
      (runConsultancyFlow env ai db sid msg now).writes[j]? = some wj →
      wi.chat_history <+: wj.chat_history := by
  intro i j hij wi wj hwi hwj
  rcases eq_or_lt_of_le hij with rfl | hlt
  · obtain rfl : wi = wj := by
      rw [hwi] at hwj
      exact Option.some.inj hwj
    exact List.prefix_refl _
  · have hbase : ChainOk { persisted := session, writes := [], calls := [] } :=
      ⟨by simp, by simp⟩
    by_cases hw : session.current_state = WorkflowState.WAITING_FOR_INFO
    · simp only [runConsultancyFlow, hk, hs, hw, eq_self_iff_true, if_true] at hwi hwj
      obtain ⟨hi, hvi⟩ := List.getElem?_eq_some.mp hwi
      obtain ⟨hj, hvj⟩ := List.getElem?_eq_some.mp hwj
      subst hvi hvj
      have hc := @agentPhase_chain ai session msg now
        (updateState (appendMessage { role := .user, content := msg, timestamp := now }
            session.chat_history { persisted := session, writes := [], calls := [] }).2
          { company_info := some msg, current_state := some .START_RESEARCH })
        ((appendMessage { role := .user, content := msg, timestamp := now }
            session.chat_history { persisted := session, writes := [], calls := [] }).1)
        session.research_results session.research_counter
        (ChainOk_doUpdate_nochat (ChainOk_appendMessage hbase rfl) rfl)
        (by simp [appendMessage, updateState, applyUpdate])
      have hp := List.pairwise_iff_get.mp hc.2 ⟨i, hi⟩ ⟨j, hj⟩ hlt
      simpa [List.get_eq_getElem] using hp
    · simp only [runConsultancyFlow, hk, hs, if_neg hw] at hwi hwj
      obtain ⟨hi, hvi⟩ := List.getElem?_eq_some.mp hwi
      obtain ⟨hj, hvj⟩ := List.getElem?_eq_some.mp hwj
      subst hvi hvj
      have hc := @agentPhase_chain ai session msg now
        ((appendMessage { role := .user, content := msg, timestamp := now }
            session.chat_history { persisted := session, writes := [], calls := [] }).2)
        ((appendMessage { role := .user, content := msg, timestamp := now }
            session.chat_history { persisted := session, writes := [], calls := [] }).1)
        session.research_results session.research_counter
        (ChainOk_appendMessage hbase rfl)
        (by simp [appendMessage, updateState, applyUpdate])
      have hp := List.pairwise_iff_get.mp hc.2 ⟨i, hi⟩ ⟨j, hj⟩ hlt
      simpa [List.get_eq_getElem] using hp

theorem C6_chat_history_append_only_witness :
    (0 : Nat) ≤ 1 ∧
    (runConsultancyFlow wEnv wAi wDb "s1" "hola" 0).writes[0]? =
      some { wFresh with chat_history := [{ role := .user, content := "hola", timestamp := 0 }] } ∧
    (runConsultancyFlow wEnv wAi wDb "s1" "hola" 0).writes[1]? =
      some { wFresh with
        chat_history := [{ role := .user, content := "hola", timestamp := 0 }]
        company_info := some "hola"
        current_state := .START_RESEARCH } ∧
    ({ wFresh with chat_history :=
        [{ role := .user, content := "hola", timestamp := 0 }] } : SessionData).chat_history <+:
      ({ wFresh with
        chat_history := [{ role := .user, content := "hola", timestamp := 0 }]
        company_info := some "hola"
        current_state := .START_RESEARCH } : SessionData).chat_history :=
  ⟨by decide, by decide, by decide,
    C6_chat_history_append_only wEnv wAi wDb "s1" "hola" 0 "k" wFresh rfl rfl 0 1
      (by decide) _ _ (by decide) (by decide)⟩

/-- C3 counterexample: on a session already in `FINISHED` state the runner is
not rejected and does mutate the session: the call succeeds, persists writes,
grows `chat_history` from 0 to 3 messages and bumps `research_counter` from
2 to 3. -/
theorem C3_finished_counterexample :
    (runConsultancyFlow wEnv wAi wDbFin "s2" "otra" 0).result.success = true ∧
    (runConsultancyFlow wEnv wAi wDbFin "s2" "otra" 0).writes ≠ [] ∧
    ((runConsultancyFlow wEnv wAi wDbFin "s2" "otra" 0).result.data.map
      (fun s => s.chat_history.length)) = some 3 ∧
    wFinished.chat_history.length = 0 ∧
    ((runConsultancyFlow wEnv wAi wDbFin "s2" "otra" 0).result.data.map
      (fun s => s.research_counter)) = some 3 ∧
    wFinished.research_counter = 2 := by
  refine ⟨rfl, by decide, rfl, rfl, rfl, rfl⟩

/-- C3 amended: a `FINISHED` session is not read-only at the runner level:
`runConsultancyFlow` accepts the call, immediately persists the user message
appended to `chat_history`, and returns success; the reference UI's input
`disabled` predicate is `false` in the `FINISHED` state, so the UI does not
reject the input either. -/
theorem C3_finished_amended (env : GenEnv) (ai : GenAI)
    (db : List (String × SessionData)) (sid msg : String) (now : Nat)
    (k : String) (session : SessionData)
    (hk : envKey env = some k) (hs : lookupSession db sid = some session)
    (hfin : session.current_state = WorkflowState.FINISHED) :
    (runConsultancyFlow env ai db sid msg now).result.success = true ∧
    (runConsultancyFlow env ai db sid msg now).writes.head? =
      some { session with chat_history := session.chat_history ++
        [{ role := .user, content := msg, timestamp := now }] } ∧
    inputDisabled WorkflowState.FINISHED = false := by
  have hw : ¬ session.current_state = WorkflowState.WAITING_FOR_INFO := by
    rw [hfin]
    decide
  simp only [runConsultancyFlow, hk, hs, if_neg hw]
  refine ⟨trivial, ?_, by decide⟩
  obtain ⟨t, ht⟩ := @agentPhase_writesExt ai session msg now
    ((appendMessage { role := .user, content := msg, timestamp := now }
        session.chat_history { persisted := session, writes := [], calls := [] }).2)
    ((appendMessage { role := .user, content := msg, timestamp := now }
        session.chat_history { persisted := session, writes := [], calls := [] }).1)
    session.research_results session.research_counter
  rw [ht]
  rfl

theorem C3_finished_amended_witness :
    (runConsultancyFlow wEnv wAi wDbFin "s2" "otra" 0).result.success = true ∧
    (runConsultancyFlow wEnv wAi wDbFin "s2" "otra" 0).writes.head? =
      some { wFinished with chat_history :=
        [{ role := .user, content := "otra", timestamp := 0 }] } := by
  have h := C3_finished_amended wEnv wAi wDbFin "s2" "otra" 0 "k" wFinished rfl rfl rfl
  exact ⟨h.1, h.2.1⟩

/-- C2 counterexample: with a client that throws on the first call, the
invocation records the agent failure yet returns a success result with no
error field — not a failure result carrying the message. -/
theorem C2_failure_result_counterexample :
    (runConsultancyFlow wEnv wAiFail wDb "s1" "hola" 0).agentError = some "boom" ∧
    (runConsultancyFlow wEnv wAiFail wDb "s1" "hola" 0).result.success = true ∧
    (runConsultancyFlow wEnv wAiFail wDb "s1" "hola" 0).result.error = none :=
  ⟨rfl, rfl, rfl⟩

/-- C2 amended: when a model call fails mid-sequence, exactly one
`system`-role message (`Error interno de IA: <message>`) is appended as the
final write, which differs from the row persisted at the failure point only
in `chat_history` (in particular `current_state` is not transitioned
further); the invocation then returns a SUCCESS result carrying the
re-fetched session, not a failure result. -/
theorem C2_agent_failure_amended (env : GenEnv) (ai : GenAI)
    (db : List (String × SessionData)) (sid msg : String) (now : Nat)
    (k : String) (session : SessionData) (e : String)
    (hk : envKey env = some k) (hs : lookupSession db sid = some session)
    (he : (runConsultancyFlow env ai db sid msg now).agentError = some e) :
    ∃ prev : SessionData,
      (runConsultancyFlow env ai db sid msg now).result =
        { success := true
          data := some { prev with chat_history := prev.chat_history ++ [errMsg e now] }
          error := none } ∧
      (runConsultancyFlow env ai db sid msg now).writes.getLast? =
        some { prev with chat_history := prev.chat_history ++ [errMsg e now] } ∧
      sysCount prev.chat_history = sysCount session.chat_history ∧
      sysCount (prev.chat_history ++ [errMsg e now]) = sysCount session.chat_history + 1 := by
  by_cases hw : session.current_state = WorkflowState.WAITING_FOR_INFO
  · simp only [runConsultancyFlow, hk, hs, hw, eq_self_iff_true, if_true] at he ⊢
    obtain ⟨prev, hp, hl, hc⟩ := @agentPhase_err ai session msg now
      (updateState (appendMessage { role := .user, content := msg, timestamp := now }
          session.chat_history { persisted := session, writes := [], calls := [] }).2
        { company_info := some msg, current_state := some .START_RESEARCH })
      ((appendMessage { role := .user, content := msg, timestamp := now }
          session.chat_history { persisted := session, writes := [], calls := [] }).1)
      session.research_results session.research_counter
      (sysCount session.chat_history) e
      (by simp [appendMessage, updateState, applyUpdate])
      (by simp [appendMessage, updateState, applyUpdate, sysCount_snoc_user])
      he
    refine ⟨prev, ?_, ?_, hc, ?_⟩
    · simp only [hp]
    · simpa [hp] using hl
    · rw [sysCount_snoc_sys, hc]
  · simp only [runConsultancyFlow, hk, hs, if_neg hw] at he ⊢
    obtain ⟨prev, hp, hl, hc⟩ := @agentPhase_err ai session msg now
      ((appendMessage { role := .user, content := msg, timestamp := now }
          session.chat_history { persisted := session, writes := [], calls := [] }).2)
      ((appendMessage { role := .user, content := msg, timestamp := now }
          session.chat_history { persisted := session, writes := [], calls := [] }).1)
      session.research_results session.research_counter
      (sysCount session.chat_history) e
      (by simp [appendMessage, updateState, applyUpdate])
      (by simp [appendMessage, updateState, applyUpdate, sysCount_snoc_user])
      he
    refine ⟨prev, ?_, ?_, hc, ?_⟩
    · simp only [hp]
    · simpa [hp] using hl
    · rw [sysCount_snoc_sys, hc]

theorem C2_agent_failure_amended_witness :
    (runConsultancyFlow wEnv wAiFail wDb "s1" "hola" 0).agentError = some "boom" ∧
    ∃ prev : SessionData,
      (runConsultancyFlow wEnv wAiFail wDb "s1" "hola" 0).result =
        { success := true
          data := some { prev with chat_history := prev.chat_history ++ [errMsg "boom" 0] }
          error := none } ∧
      (runConsultancyFlow wEnv wAiFail wDb "s1" "hola" 0).writes.getLast? =
        some { prev with chat_history := prev.chat_history ++ [errMsg "boom" 0] } ∧
      sysCount prev.chat_history = sysCount wFresh.chat_history ∧
      sysCount (prev.chat_history ++ [errMsg "boom" 0]) = sysCount wFresh.chat_history + 1 :=
  ⟨rfl, C2_agent_failure_amended wEnv wAiFail wDb "s1" "hola" 0 "k" wFresh "boom"
    rfl rfl rfl⟩

/-- C7: one `advance` call on a freshly created session, with every model
call answering, runs the whole pipeline: the result is a success whose
session is `FINISHED`, stores the submitted message as `company_info`, has
exactly the role sequence user, pedro, pedro, juan in `chat_history`, and a
non-null `report_final`. -/
theorem C7_end_to_end (env : GenEnv) (ai : GenAI)
    (db : List (String × SessionData)) (sid msg : String) (now : Nat)
    (f : Nat → Option String) (k : String) (session : SessionData)
    (hk : envKey env = some k) (hs : lookupSession db sid = some session)
    (hf : ∀ n sys p, ai n sys p = Except.ok (f n))
    (h1 : session.current_state = WorkflowState.WAITING_FOR_INFO)
    (h2 : session.research_counter = 0)
    (h3 : session.chat_history = []) (h4 : session.research_results = [])
    (h5 : session.company_info = none) (h6 : session.report_final = none) :
    ∃ s : SessionData,
      (runConsultancyFlow env ai db sid msg now).result =
        { success := true, data := some s, error := none } ∧
      s.current_state = WorkflowState.FINISHED ∧
      s.company_info = some msg ∧
      s.chat_history.map (fun m => m.role) =
        [AgentRole.user, AgentRole.pedro, AgentRole.pedro, AgentRole.juan] ∧
      s.report_final ≠ none := by
  simp [runConsultancyFlow, hk, hs, agentPhase, juanPhase, genCall, appendMessage,
    updateState, applyUpdate, hf, h1, h2, h3, h4, h5, h6]

theorem C7_end_to_end_witness :
    ∃ s : SessionData,
      (runConsultancyFlow wEnv wAi wDb "s1" "We run a logistics startup" 0).result =
        { success := true, data := some s, error := none } ∧
      s.current_state = WorkflowState.FINISHED ∧
      s.company_info = some "We run a logistics startup" ∧
      s.chat_history.map (fun m => m.role) =
        [AgentRole.user, AgentRole.pedro, AgentRole.pedro, AgentRole.juan] ∧
      s.report_final ≠ none :=
  C7_end_to_end wEnv wAi wDb "s1" "We run a logistics startup" 0 (fun _ => some "resp")
    "k" wFresh rfl rfl (fun _ _ _ => rfl) rfl rfl rfl rfl rfl rfl

/-- C10: empty or absent model text is replaced by fixed non-empty fallback
strings, so — given the session's pre-existing research results and report
satisfy the same property — every message this invocation appends with role
pedro or juan has non-empty content, every element of the returned session's
`research_results` is non-empty, and its `report_final`, when set, is
non-empty. -/
theorem C10_fallback_nonempty (env : GenEnv) (ai : GenAI)
    (db : List (String × SessionData)) (sid msg : String) (now : Nat)
    (k : String) (session : SessionData)
    (hk : envKey env = some k) (hs : lookupSession db sid = some session)
    (hres : ∀ r ∈ session.research_results, r ≠ "")
    (hrep : ∀ t, session.report_final = some t → t ≠ "") :
    ∃ (s : SessionData) (suf : List ChatMessage),
      (runConsultancyFlow env ai db sid msg now).result.data = some s ∧
      s.chat_history = session.chat_history ++ suf ∧
      (∀ m ∈ suf, (m.role = AgentRole.pedro ∨ m.role = AgentRole.juan) → m.content ≠ "") ∧
      (∀ r ∈ s.research_results, r ≠ "") ∧
      (∀ t, s.report_final = some t → t ≠ "") := by
  have husr : ∀ m ∈ [({ role := .user, content := msg, timestamp := now } : ChatMessage)],
      (m.role = AgentRole.pedro ∨ m.role = AgentRole.juan) → m.content ≠ "" := by
    intro m hm hrole
    rcases List.mem_singleton.1 hm with rfl
    rcases hrole with h | h <;> cases h
  by_cases hw : session.current_state = WorkflowState.WAITING_FOR_INFO
  · simp only [runConsultancyFlow, hk, hs, hw, eq_self_iff_true, if_true]
    have hgood := @agentPhase_good session.chat_history ai session msg now
      (updateState (appendMessage { role := .user, content := msg, timestamp := now }
          session.chat_history { persisted := session, writes := [], calls := [] }).2
        { company_info := some msg, current_state := some .START_RESEARCH })
      ((appendMessage { role := .user, content := msg, timestamp := now }
          session.chat_history { persisted := session, writes := [], calls := [] }).1)
      session.research_results session.research_counter
      (by
        refine ⟨⟨[{ role := .user, content := msg, timestamp := now }], ?_, husr⟩, ?_, ?_⟩
        · simp [appendMessage, updateState, applyUpdate]
        · simpa [appendMessage, updateState, applyUpdate] using hres
        · simpa [appendMessage, updateState, applyUpdate] using hrep)
      (by simp [appendMessage, updateState, applyUpdate])
      hres
    obtain ⟨⟨suf, hsuf1, hsuf2⟩, hr, hp⟩ := hgood
    exact ⟨_, suf, rfl, hsuf1, hsuf2, hr, hp⟩
  · simp only [runConsultancyFlow, hk, hs, if_neg hw]
    have hgood := @agentPhase_good session.chat_history ai session msg now
      ((appendMessage { role := .user, content := msg, timestamp := now }
          session.chat_history { persisted := session, writes := [], calls := [] }).2)
      ((appendMessage { role := .user, content := msg, timestamp := now }
          session.chat_history { persisted := session, writes := [], calls := [] }).1)
      session.research_results session.research_counter
      (by
        refine ⟨⟨[{ role := .user, content := msg, timestamp := now }], ?_, husr⟩, ?_, ?_⟩
        · simp [appendMessage, updateState, applyUpdate]
        · simpa [appendMessage, updateState, applyUpdate] using hres
        · simpa [appendMessage, updateState, applyUpdate] using hrep)
      (by simp [appendMessage, updateState, applyUpdate])
      hres
    obtain ⟨⟨suf, hsuf1, hsuf2⟩, hr, hp⟩ := hgood
    exact ⟨_, suf, rfl, hsuf1, hsuf2, hr, hp⟩

theorem C10_fallback_nonempty_witness :
    (∀ r ∈ wFresh.research_results, r ≠ "") ∧
    ∃ (s : SessionData) (suf : List ChatMessage),
      (runConsultancyFlow wEnv wAi wDb "s1" "hola" 0).result.data = some s ∧
      s.chat_history = wFresh.chat_history ++ suf ∧
      (∀ m ∈ suf, (m.role = AgentRole.pedro ∨ m.role = AgentRole.juan) → m.content ≠ "") ∧
      (∀ r ∈ s.research_results, r ≠ "") ∧
      (∀ t, s.report_final = some t → t ≠ "") :=
  ⟨by decide,
   C10_fallback_nonempty wEnv wAi wDb "s1" "hola" 0 "k" wFresh rfl rfl
     (by decide) (by decide)⟩
